import Mathlib

/-!
Shallow embedding of the Salsa20 stream-cipher implementation found in
`src/salsa20.cpp` (class `Salsa20`, with shared helpers declared in
`src/salsa20.hpp`), together with proofs about the claims on its
specification.

Conventions of the embedding:
* `uint32_t` values are `Nat` together with an explicit `% U32`
  (`U32 = 2 ^ 32`) wherever the C arithmetic can wrap; likewise `uint8_t`
  is `Nat` with `% 256` and `uint64_t` is `Nat` with `% U64`.
* The member `_matrix[4][4]` is the 16-field structure `Mat`, row-major:
  field `mRC` is `_matrix[R][C]`.
* Byte strings (`std::string` used as raw bytes, `std::vector<uint8_t>`)
  are `List Nat`; hex strings are `List Char` because the code inspects
  the characters (`isxdigit`).  All keys and nonces that appear in the
  claims are ASCII, where C `size()` and `List.length` agree.
* C `assert` failures, `throw std::length_error`, and
  `exit(EXIT_FAILURE)` are the three failure modes present in the file;
  fallible functions return `Except CErr _` with one constructor per
  mode, so that the delivery mechanism of each failure stays visible.
-/

namespace Salsa20

/-- `2 ^ 32`, the modulus of the `uint32_t` arithmetic in the source. -/
def U32 : Nat := 4294967296

/-- `2 ^ 64`, the modulus of the `uint64_t` arithmetic in the source. -/
def U64 : Nat := 18446744073709551616

/-- `UINT32_MAX`, used by `Salsa20::incrementCounter` (salsa20.cpp:174). -/
def U32MAX : Nat := 4294967295

/-- The three failure modes occurring in `src/salsa20.cpp`:
`lengthError` models `throw std::length_error(...)` (a typed C++
exception the caller can catch), `assertFail` models a failed C
`assert(...)` (process abort in debug builds), and `exitFailure` models
`exit(EXIT_FAILURE)` (unconditional process termination). -/
inductive CErr where
  | lengthError : CErr
  | assertFail : CErr
  | exitFailure : CErr
  deriving DecidableEq

/-- The `uint32_t _matrix[4][4]` member (salsa20.hpp:44), row-major;
`mRC` is `_matrix[R][C]`. -/
structure Mat where
  m00 : Nat
  m01 : Nat
  m02 : Nat
  m03 : Nat
  m10 : Nat
  m11 : Nat
  m12 : Nat
  m13 : Nat
  m20 : Nat
  m21 : Nat
  m22 : Nat
  m23 : Nat
  m30 : Nat
  m31 : Nat
  m32 : Nat
  m33 : Nat
  deriving DecidableEq

/-- `uint32_t _matrix[4][4] = {0}` (salsa20.hpp:44): the matrix a fresh
instance starts from before `initMatrix` runs. -/
def zeroMat : Mat := ⟨0, 0, 0, 0, 0, 0, 0, 0, 0, 0, 0, 0, 0, 0, 0, 0⟩

/-- `Salsa20::littleEndianWordFromBytes` (salsa20.cpp:83-88): assembles a
32-bit little-endian word from four bytes. -/
def littleEndianWordFromBytes (b0 b1 b2 b3 : Nat) : Nat :=
  (b0 + (b1 <<< 8) + (b2 <<< 16) + (b3 <<< 24)) % U32

/-- `Salsa20::bytesFromLittleEndianWord` (salsa20.cpp:91-96): splits a
32-bit word into four bytes, least significant first (each assignment to
a `uint8_t` truncates mod 256). -/
def bytesFromLittleEndianWord (word : Nat) : List Nat :=
  [word % 256, (word >>> 8) % 256, (word >>> 16) % 256, (word >>> 24) % 256]

/-- `Salsa20::rotate` (salsa20.cpp:206-208): 32-bit left rotation,
`(val << bits) | (val >> (32 - bits))`; the left shift of a `uint32_t`
wraps mod `2 ^ 32`. -/
def rotate (val : Nat) (bits : Nat) : Nat :=
  ((val <<< bits) % U32) ||| (val >>> (32 - bits))

/-- `Salsa20::quarterRound` (salsa20.cpp:210-215): the four in-place
add-rotate-xor steps, in source order, on `uint32_t` references; the
additions wrap mod `2 ^ 32`.  Returns the final `(a, b, c, d)`. -/
def quarterRound (a b c d : Nat) : Nat × Nat × Nat × Nat :=
  let b := b ^^^ rotate ((a + d) % U32) 7
  let c := c ^^^ rotate ((b + a) % U32) 9
  let d := d ^^^ rotate ((c + b) % U32) 13
  let a := a ^^^ rotate ((d + c) % U32) 18
  (a, b, c, d)

/-- `Salsa20::rowRound` (salsa20.cpp:184-189): `quarterRound` on each row
of the state, with the source's cell groupings, executed in order. -/
def rowRound (m : Mat) : Mat :=
  let r0 := quarterRound m.m00 m.m01 m.m02 m.m03
  let m := { m with m00 := r0.1, m01 := r0.2.1, m02 := r0.2.2.1, m03 := r0.2.2.2 }
  let r1 := quarterRound m.m11 m.m12 m.m13 m.m10
  let m := { m with m11 := r1.1, m12 := r1.2.1, m13 := r1.2.2.1, m10 := r1.2.2.2 }
  let r2 := quarterRound m.m22 m.m23 m.m20 m.m21
  let m := { m with m22 := r2.1, m23 := r2.2.1, m20 := r2.2.2.1, m21 := r2.2.2.2 }
  let r3 := quarterRound m.m33 m.m30 m.m31 m.m32
  { m with m33 := r3.1, m30 := r3.2.1, m31 := r3.2.2.1, m32 := r3.2.2.2 }

/-- `Salsa20::columnRound` (salsa20.cpp:192-197): `quarterRound` on each
column of the state, with the source's cell groupings, executed in
order. -/
def columnRound (m : Mat) : Mat :=
  let r0 := quarterRound m.m00 m.m10 m.m20 m.m30
  let m := { m with m00 := r0.1, m10 := r0.2.1, m20 := r0.2.2.1, m30 := r0.2.2.2 }
  let r1 := quarterRound m.m11 m.m21 m.m31 m.m01
  let m := { m with m11 := r1.1, m21 := r1.2.1, m31 := r1.2.2.1, m01 := r1.2.2.2 }
  let r2 := quarterRound m.m22 m.m32 m.m02 m.m12
  let m := { m with m22 := r2.1, m32 := r2.2.1, m02 := r2.2.2.1, m12 := r2.2.2.2 }
  let r3 := quarterRound m.m33 m.m03 m.m13 m.m23
  { m with m33 := r3.1, m03 := r3.2.1, m13 := r3.2.2.1, m23 := r3.2.2.2 }

/-- `Salsa20::doubleRound` (salsa20.cpp:200-203): first `columnRound`,
then `rowRound`. -/
def doubleRound (m : Mat) : Mat :=
  rowRound (columnRound m)

/-- The loop `for (uint8_t i=0; i<20; i+=2) doubleRound(state)` in
`Salsa20::keyStreamBlock` (salsa20.cpp:225-226): `n` applications of
`doubleRound` (the source runs it 10 times). -/
def iterDouble : Nat → Mat → Mat
  | 0, m => m
  | n + 1, m => iterDouble n (doubleRound m)

/-- The elementwise addition `state[row][col] += _matrix[row][col]` in
`Salsa20::keyStreamBlock` (salsa20.cpp:229-231), wrapping mod `2 ^ 32`. -/
def matAdd (s m : Mat) : Mat :=
  ⟨(s.m00 + m.m00) % U32, (s.m01 + m.m01) % U32, (s.m02 + m.m02) % U32,
   (s.m03 + m.m03) % U32, (s.m10 + m.m10) % U32, (s.m11 + m.m11) % U32,
   (s.m12 + m.m12) % U32, (s.m13 + m.m13) % U32, (s.m20 + m.m20) % U32,
   (s.m21 + m.m21) % U32, (s.m22 + m.m22) % U32, (s.m23 + m.m23) % U32,
   (s.m30 + m.m30) % U32, (s.m31 + m.m31) % U32, (s.m32 + m.m32) % U32,
   (s.m33 + m.m33) % U32⟩

/-- The 16 matrix cells in the row-major order of the serialization loop
in `Salsa20::keyStreamBlock` (salsa20.cpp:235-241). -/
def matWords (m : Mat) : List Nat :=
  [m.m00, m.m01, m.m02, m.m03, m.m10, m.m11, m.m12, m.m13,
   m.m20, m.m21, m.m22, m.m23, m.m30, m.m31, m.m32, m.m33]

/-- `Salsa20::keyStreamBlock` (salsa20.cpp:218-251): copies `_matrix`
into the local `state`, applies 10 double-rounds, adds the original
matrix elementwise mod `2 ^ 32`, and serializes the 16 result words
little-endian into the 64 output bytes.  Lines 243-246 then increment
`state[1][2]` (and on wrap `state[1][3]`) of the LOCAL copy, which goes
out of scope immediately; the call to `incrementCounter()` at line 250
is commented out, so the member `_matrix` is never written.  The result
is the output block together with the (unchanged) stored matrix. -/
def keyStreamBlock (m : Mat) : List Nat × Mat :=
  let s := iterDouble 10 m
  let s := matAdd s m
  ((matWords s).flatMap bytesFromLittleEndianWord, m)

/-- `Salsa20::incrementCounter` (salsa20.cpp:170-181): treats
`_matrix[1][2]` (high) and `_matrix[1][3]` (low) as a counter pair.
When `_matrix[1][3]` is below `UINT32_MAX` it increments it; when
`_matrix[1][3]` equals `UINT32_MAX` but `_matrix[1][2]` does not, it
increments `_matrix[1][2]` and leaves `_matrix[1][3]` at `UINT32_MAX`
(there is no reset to zero at line 179, so the pair read as a 64-bit
value advances by `2 ^ 32`, not by one); when both are `UINT32_MAX` it
prints to `cerr` and calls `exit(EXIT_FAILURE)` (modelled
`CErr.exitFailure`).  Note the cells it touches are the NONCE positions
of `initMatrix`, not the counter positions
`_matrix[2][0]`/`_matrix[2][1]`; and no function in the file calls it
(the call site at salsa20.cpp:250 is commented out). -/
def incrementCounter (m : Mat) : Except CErr Mat :=
  if m.m13 = U32MAX then
    if m.m12 = U32MAX then
      Except.error CErr.exitFailure
    else
      Except.ok { m with m12 := (m.m12 + 1) % U32 }
  else
    Except.ok { m with m13 := (m.m13 + 1) % U32 }

/-- `Salsa20::setCounter(uint64_t)` (salsa20.cpp:156-160): writes
`(counter & 0xffffffff00000000) >> 32` into `_matrix[2][0]` and
`(counter & 0x00000000ffffffff) >> 32` into `_matrix[2][1]` (the second
expression is kept verbatim from the source: it masks the LOW 32 bits
and then shifts them out again). -/
def setCounter (m : Mat) (counter : Nat) : Mat :=
  let counter := counter % U64
  { m with
    m20 := (counter &&& 0xffffffff00000000) >>> 32,
    m21 := (counter &&& 0x00000000ffffffff) >>> 32 }

/-- `Salsa20::setNonce(uint64_t)` (salsa20.cpp:139-144): writes the high
32 bits of the nonce into `_matrix[1][2]` and
`(nonce & 0x00000000ffffffff) >> 32` (verbatim from the source) into
`_matrix[1][3]`, then calls `setCounter(0)`. -/
def setNonceInt (m : Mat) (nonce : Nat) : Mat :=
  let nonce := nonce % U64
  setCounter
    { m with
      m12 := (nonce &&& 0xffffffff00000000) >>> 32,
      m13 := (nonce &&& 0x00000000ffffffff) >>> 32 }
    0

/-- The predicate `::isxdigit` used in the `assert` of
`Salsa20::hexCharsToLittleEndianWord` (salsa20.cpp:274): the character
is a decimal digit or a hex letter of either case. -/
def isHexChar (c : Char) : Bool :=
  (48 ≤ c.toNat && c.toNat ≤ 57) ||
  (65 ≤ c.toNat && c.toNat ≤ 70) ||
  (97 ≤ c.toNat && c.toNat ≤ 102)

/-- The numeric value `stoul(·, nullptr, 16)` assigns to a single hex
digit (salsa20.cpp:279); only applied to characters passing
`isHexChar`. -/
def hexVal (c : Char) : Nat :=
  if c.toNat ≤ 57 then c.toNat - 48
  else if c.toNat ≤ 70 then c.toNat - 55
  else c.toNat - 87

/-- One byte `stoul(hex_str.substr(pos, 2), nullptr, 16)` of
`Salsa20::hexCharsToLittleEndianWord` (salsa20.cpp:279). -/
def hexByte (s : List Char) (pos : Nat) : Nat :=
  16 * hexVal (s.getD pos '0') + hexVal (s.getD (pos + 1) '0')

/-- `Salsa20::hexCharsToLittleEndianWord` (salsa20.cpp:273-282): asserts
that every character of the string is a hex digit and that
`start_pos + 8 <= hex_str.length()` (assert failures modelled
`CErr.assertFail` via `none`), then decodes four consecutive hex byte
pairs into a little-endian word. -/
def hexCharsToLittleEndianWord (hex_str : List Char) (start_pos : Nat) : Option Nat :=
  if hex_str.all isHexChar && decide (start_pos + 8 ≤ hex_str.length) then
    some (littleEndianWordFromBytes (hexByte hex_str start_pos)
      (hexByte hex_str (start_pos + 2)) (hexByte hex_str (start_pos + 4))
      (hexByte hex_str (start_pos + 6)))
  else
    none

/-- `Salsa20::charsToLittleEndianWord` (salsa20.cpp:285-289): asserts
`start_pos + 4 <= str.length()` and reads four raw characters, cast to
`uint8_t`, as a little-endian word. -/
def charsToLittleEndianWord (str : List Char) (start_pos : Nat) : Option Nat :=
  if start_pos + 4 ≤ str.length then
    some (littleEndianWordFromBytes ((str.getD start_pos ' ').toNat % 256)
      ((str.getD (start_pos + 1) ' ').toNat % 256)
      ((str.getD (start_pos + 2) ' ').toNat % 256)
      ((str.getD (start_pos + 3) ' ').toNat % 256))
  else
    none

/-- `Salsa20::setNonce(string)` (salsa20.cpp:148-154): asserts the hex
string has exactly 16 characters, decodes its two halves with
`hexCharsToLittleEndianWord` (whose own asserts require every character
to be a hex digit) into `_matrix[1][2]` and `_matrix[1][3]`, then calls
`setCounter(0)`.  Every failure is a C `assert`, modelled
`CErr.assertFail`. -/
def setNonceHex (m : Mat) (hex_str : List Char) : Except CErr Mat :=
  if hex_str.length = 16 then
    match hexCharsToLittleEndianWord hex_str 0 with
    | none => Except.error CErr.assertFail
    | some w1 =>
      match hexCharsToLittleEndianWord hex_str 8 with
      | none => Except.error CErr.assertFail
      | some w2 => Except.ok (setCounter { m with m12 := w1, m13 := w2 } 0)
  else
    Except.error CErr.assertFail

/-- The bytes of the string literal `"expand 32-byte k"`
(salsa20.cpp:109). -/
def constants32 : List Nat :=
  ("expand 32-byte k".data).map Char.toNat

/-- The bytes of the string literal `"expand 16-byte k"`
(salsa20.cpp:110). -/
def constants16 : List Nat :=
  ("expand 16-byte k".data).map Char.toNat

/-- `Salsa20::initMatrix` (salsa20.cpp:98-136): places the four constant
words (from the constants string chosen by `keylen`) on the diagonal and
the eight key words around them; the nonce cells `_matrix[1][2]`,
`_matrix[1][3]` and the counter cells `_matrix[2][0]`, `_matrix[2][1]`
are NOT written (they keep whatever `m` holds; a fresh instance holds
zeros there).  `keylen` is asserted to be 16 or 32; the `keylen == 32`
test picks the 32-byte constants, otherwise the 16-byte ones. -/
def initMatrix (m : Mat) (key : List Nat) (keylen : Nat) : Mat :=
  let c := if keylen = 32 then constants32 else constants16
  let cw := fun (i : Nat) =>
    littleEndianWordFromBytes (c.getD i 0) (c.getD (i + 1) 0)
      (c.getD (i + 2) 0) (c.getD (i + 3) 0)
  { m with
    m00 := cw 0, m01 := key.getD 0 0, m02 := key.getD 1 0, m03 := key.getD 2 0,
    m10 := key.getD 3 0, m11 := cw 4,
    m22 := cw 8, m23 := key.getD 4 0,
    m30 := key.getD 5 0, m31 := key.getD 6 0, m32 := key.getD 7 0, m33 := cw 12 }

/-- `Salsa20::Salsa20(const string, bool)` with `hex_key == false`
(salsa20.cpp:18-39): throws `length_error` unless the string has 16 or
32 characters (= bytes); packs every 4 characters into a key word; and
then — with the branches around the wrong way relative to its own
comment `if short key, copy same key in other half of key blocks` —
for a 32-character (32-byte) key OVERWRITES key words 4-7 with copies of
words 0-3 and initializes with `keylen = 16`, while for a 16-character
(16-byte) key it leaves key words 4-7 UNINITIALIZED (stack garbage,
modelled by the extra argument `junk`) and initializes with
`keylen = 32`. -/
def salsa20CtorAscii (key_str : List Char) (junk : List Nat) : Except CErr Mat :=
  if ¬(key_str.length = 16 ∨ key_str.length = 32) then
    Except.error CErr.lengthError
  else
    match (List.range (key_str.length / 4)).mapM
        (fun j => charsToLittleEndianWord key_str (4 * j)) with
    | none => Except.error CErr.assertFail
    | some kw =>
      if key_str.length = 32 then
        Except.ok (initMatrix zeroMat (kw.take 4 ++ kw.take 4) 16)
      else
        Except.ok (initMatrix zeroMat (kw ++ junk) 32)

/-- `Salsa20::Salsa20(const string, bool)` with `hex_key == true`
(salsa20.cpp:41-57): throws `length_error` unless the string has 32 or
64 hex characters; packs every 8 hex characters into a key word via
`hexCharsToLittleEndianWord` (whose assert rejects non-hex characters);
a 32-hex-character (16-byte) key is duplicated into both halves and
initialized with `keylen = 16`, a 64-hex-character (32-byte) key fills
all 8 words and is initialized with `keylen = 32`. -/
def salsa20CtorHex (key_str : List Char) : Except CErr Mat :=
  if ¬(key_str.length = 32 ∨ key_str.length = 64) then
    Except.error CErr.lengthError
  else
    match (List.range (key_str.length / 8)).mapM
        (fun j => hexCharsToLittleEndianWord key_str (8 * j)) with
    | none => Except.error CErr.assertFail
    | some kw =>
      if key_str.length = 32 then
        Except.ok (initMatrix zeroMat (kw.take 4 ++ kw.take 4) 16)
      else
        Except.ok (initMatrix zeroMat kw 32)

/-- `Salsa20::Salsa20(const vector<uint8_t>)` (salsa20.cpp:63-80):
throws `length_error` unless the vector has 16 or 32 bytes; packs every
4 bytes into a key word; a 16-byte key is duplicated into both halves
(the source `memcpy` at line 76 passes the oversized length
`4*sizeof(key_words)` = 128 bytes — undefined behaviour past the array —
whose in-bounds portion copies words 0-3 over words 4-7 as intended) and
initialized with `keylen = 16`; a 32-byte key fills all 8 words and is
initialized with `keylen = 32`. -/
def salsa20CtorBytes (key : List Nat) : Except CErr Mat :=
  if ¬(key.length = 16 ∨ key.length = 32) then
    Except.error CErr.lengthError
  else
    let kw := (List.range (key.length / 4)).map (fun i =>
      littleEndianWordFromBytes (key.getD (4 * i) 0) (key.getD (4 * i + 1) 0)
        (key.getD (4 * i + 2) 0) (key.getD (4 * i + 3) 0))
    if key.length = 16 then
      Except.ok (initMatrix zeroMat (kw ++ kw) 16)
    else
      Except.ok (initMatrix zeroMat kw 32)

/-- Projects a constructor result for use in concrete statements;
`zeroMat` stands in for the error case. -/
def getMat (e : Except CErr Mat) : Mat :=
  match e with
  | Except.ok m => m
  | Except.error _ => zeroMat

/-- The state touched by `Salsa20::encryptBytes` (salsa20.cpp:253-270):
the matrix, the stream position `_stream_pos` (used by salsa20.cpp but
declared in a revision of salsa20.hpp not present here; the spec calls
it the StreamCursor), and the current 64-byte keystream buffer `block`
(a function-local `static` in the source, carried here as part of the
driver state). -/
structure EncState where
  mat : Mat
  streamPos : Nat
  block : List Nat
  deriving DecidableEq

/-- One iteration of the loop in `Salsa20::encryptBytes`
(salsa20.cpp:260-269): reduce `_stream_pos` mod 64, refill `block` from
`keyStreamBlock` when it is 0, and xor the input byte with
`block[_stream_pos++]` (`uint8_t` result, truncated mod 256). -/
def encStep (s : EncState) (byte : Nat) : Nat × EncState :=
  let pos := s.streamPos % 64
  let blk := if pos = 0 then (keyStreamBlock s.mat).1 else s.block
  let mat := if pos = 0 then (keyStreamBlock s.mat).2 else s.mat
  ((blk.getD pos 0 ^^^ byte) % 256, ⟨mat, pos + 1, blk⟩)

/-- `Salsa20::encryptBytes` (salsa20.cpp:253-270): xors each input byte
against the keystream, pulling a fresh 64-byte block whenever the
stream position is a multiple of 64; returns the output bytes and the
updated state (`num_bytes == 0` returns immediately with no state
change). -/
def encryptBytes (s : EncState) : List Nat → List Nat × EncState
  | [] => ([], s)
  | byte :: rest =>
    let os := encStep s byte
    let tl := encryptBytes os.2 rest
    (os.1 :: tl.1, tl.2)

/-- A 32-character (32-byte) ASCII key with eight pairwise distinct key
words, used to evaluate the ASCII-key constructor. -/
def asciiKey32 : List Char := "0123456789ABCDEFGHIJKLMNOPQRSTUV".data

/-- The matrix with every cell at `UINT32_MAX`: in particular both
counter words (and both cells `incrementCounter` reads) are at their
maxima, the exhaustion case of the claim. -/
def maxMat : Mat :=
  ⟨U32MAX, U32MAX, U32MAX, U32MAX, U32MAX, U32MAX, U32MAX, U32MAX,
   U32MAX, U32MAX, U32MAX, U32MAX, U32MAX, U32MAX, U32MAX, U32MAX⟩

/-- A matrix whose cell `_matrix[1][3]` is at `UINT32_MAX` while
`_matrix[1][2]` is not: the carry case of `incrementCounter`. -/
def carryMat : Mat := { zeroMat with m13 := U32MAX }

/-- The 16-hex-character encoding of the 8 nonce bytes of the 64-bit
value 1. -/
def hexNonce1 : List Char := "0000000000000001".data

/-! ### Helper lemmas -/

/-- Masking a value to its low 32 bits and then shifting right by 32 —
the expression the source uses for the low counter and nonce words —
always yields 0. -/
theorem maskLow_shift32_eq_zero (x : Nat) : (x &&& 0xffffffff) >>> 32 = 0 := by
  rw [Nat.shiftRight_eq_div_pow]
  exact Nat.div_eq_of_lt (lt_of_le_of_lt Nat.and_le_right (by norm_num))

/-- Every byte produced by `bytesFromLittleEndianWord` is below 256. -/
theorem bytesFromLittleEndianWord_lt (w : Nat) :
    ∀ b ∈ bytesFromLittleEndianWord w, b < 256 := by
  intro b hb
  simp only [bytesFromLittleEndianWord, List.mem_cons, List.not_mem_nil, or_false] at hb
  rcases hb with rfl | rfl | rfl | rfl <;> omega

/-- Every byte of a generated keystream block is below 256. -/
theorem keyStreamBlock_bytes_lt (m : Mat) :
    ∀ b ∈ (keyStreamBlock m).1, b < 256 := by
  intro b hb
  have h : (keyStreamBlock m).1 =
      (matWords (matAdd (iterDouble 10 m) m)).flatMap bytesFromLittleEndianWord := rfl
  rw [h] at hb
  rcases List.mem_flatMap.mp hb with ⟨w, _, hbw⟩
  exact bytesFromLittleEndianWord_lt w b hbw

/-- `List.getD` with default 0 stays below 256 on a list of bytes. -/
theorem getD_lt_of_forall_lt (l : List Nat) (i : Nat)
    (h : ∀ x ∈ l, x < 256) : l.getD i 0 < 256 := by
  induction l generalizing i with
  | nil => cases i <;> simp [List.getD]
  | cons a t ih =>
    cases i with
    | zero => exact h a (List.mem_cons_self a t)
    | succ n =>
      rw [List.getD_cons_succ]
      exact ih n (fun x hx => h x (List.mem_cons_of_mem a hx))

/-- The state transition of one `encryptBytes` loop iteration does not
depend on the value of the input byte. -/
theorem encStep_state_indep (s : EncState) (b bb : Nat) :
    (encStep s b).2 = (encStep s bb).2 := rfl

/-- One `encryptBytes` loop iteration keeps the block buffer made of
bytes. -/
theorem encStep_block_lt (s : EncState) (b : Nat)
    (hs : ∀ x ∈ s.block, x < 256) :
    ∀ x ∈ (encStep s b).2.block, x < 256 := by
  intro x hx
  by_cases h : s.streamPos % 64 = 0
  · simp only [encStep, h, if_pos rfl] at hx
    exact keyStreamBlock_bytes_lt s.mat x hx
  · simp only [encStep, if_neg h] at hx
    exact hs x hx

/-- The keystream byte used by one `encryptBytes` loop iteration is
below 256. -/
theorem encStep_key_lt (s : EncState)
    (hs : ∀ x ∈ s.block, x < 256) :
    (if s.streamPos % 64 = 0 then (keyStreamBlock s.mat).1 else s.block).getD
      (s.streamPos % 64) 0 < 256 := by
  by_cases h : s.streamPos % 64 = 0
  · rw [if_pos h]
    exact getD_lt_of_forall_lt _ _ (keyStreamBlock_bytes_lt s.mat)
  · rw [if_neg h]
    exact getD_lt_of_forall_lt _ _ hs

/-- Applying one `encryptBytes` loop iteration twice from the same state
restores a byte input: the keystream byte cancels under xor. -/
theorem encStep_roundtrip (s : EncState) (b : Nat) (hb : b < 256)
    (hs : ∀ x ∈ s.block, x < 256) :
    (encStep s ((encStep s b).1)).1 = b := by
  show ((if s.streamPos % 64 = 0 then (keyStreamBlock s.mat).1 else s.block).getD
      (s.streamPos % 64) 0 ^^^
      (((if s.streamPos % 64 = 0 then (keyStreamBlock s.mat).1 else s.block).getD
        (s.streamPos % 64) 0 ^^^ b) % 256)) % 256 = b
  have hk := encStep_key_lt s hs
  set k := (if s.streamPos % 64 = 0 then (keyStreamBlock s.mat).1 else s.block).getD
      (s.streamPos % 64) 0 with hkdef
  have hxor : k ^^^ b < 256 := Nat.xor_lt_two_pow (n := 8) hk hb
  rw [Nat.mod_eq_of_lt hxor, Nat.xor_cancel_left, Nat.mod_eq_of_lt hb]

/-! ### Claim theorems -/

/-- Claim C1 (code_bug): the claim says each `keyStreamBlock` call
increments the stored 64-bit block counter by exactly one, so that
successive calls generate blocks at successive counter values.  The code
does not: `keyStreamBlock` (salsa20.cpp:218-251) increments only the
local working copy (lines 243-246), which is discarded, and the
`incrementCounter()` call at line 250 is commented out, so the stored
matrix — counter words included — is bit-for-bit unchanged and every
successive call yields the identical block. -/
theorem keyStreamBlock_never_advances_counter (m : Mat) :
    (keyStreamBlock m).2 = m ∧
    (keyStreamBlock ((keyStreamBlock m).2)).1 = (keyStreamBlock m).1 :=
  ⟨rfl, rfl⟩

/-- Claim C2 (confirmed): from identical initial driver states (matrix,
stream position, and keystream buffer), encrypting an arbitrary byte
message and then encrypting the result again yields the original
message: `encryptBytes` is one self-inverse xor operation. -/
theorem encryptBytes_involutive : ∀ (msg : List Nat) (s : EncState),
    (∀ b ∈ msg, b < 256) → (∀ x ∈ s.block, x < 256) →
    (encryptBytes s ((encryptBytes s msg).1)).1 = msg := by
  intro msg
  induction msg with
  | nil => intro s _ _; rfl
  | cons b rest ih =>
    intro s hmsg hs
    have hb : b < 256 := hmsg b (List.mem_cons_self b rest)
    have hrest : ∀ x ∈ rest, x < 256 := fun x hx => hmsg x (List.mem_cons_of_mem b hx)
    have hs1 : ∀ x ∈ (encStep s b).2.block, x < 256 := encStep_block_lt s b hs
    show (encryptBytes s
        ((encStep s b).1 :: (encryptBytes (encStep s b).2 rest).1)).1 = b :: rest
    show (encStep s ((encStep s b).1)).1 ::
        (encryptBytes (encStep s ((encStep s b).1)).2
          ((encryptBytes (encStep s b).2 rest).1)).1 = b :: rest
    rw [encStep_roundtrip s b hb hs, encStep_state_indep s ((encStep s b).1) b,
      ih (encStep s b).2 hrest hs1]

/-- Witness for claim C2 at a concrete state and message. -/
theorem encryptBytes_involutive_witness :
    (encryptBytes ⟨zeroMat, 0, []⟩
      ((encryptBytes ⟨zeroMat, 0, []⟩ [104, 105]).1)).1 = [104, 105] :=
  encryptBytes_involutive [104, 105] ⟨zeroMat, 0, []⟩ (by decide) (by decide)

/-- Claim C3 (code_bug): the claim says a 16-byte key is duplicated into
both halves with constants `"expand 16-byte k"` while a 32-byte key
fills all 8 words distinctly with constants `"expand 32-byte k"`.  The
ASCII-string constructor (salsa20.cpp:18-39) has the branches swapped:
for the concrete 32-byte ASCII key `asciiKey32` the constructed matrix
carries the 16-byte constants (`m11 = 0x3120646e`, the word of
`"nd 1"`, not `0x3320646e` = `"nd 3"`) and key word 4 is a duplicate of
key word 0 (`m23 = m01 = 0x33323130`, the word of `"0123"`, instead of
the word of `"GHIJ"`).  The hex-string and byte-vector constructors are
not affected. -/
theorem ctorAscii_32byte_key_uses_16byte_layout :
    (getMat (salsa20CtorAscii asciiKey32 [])).m11 = 0x3120646e ∧
    (getMat (salsa20CtorAscii asciiKey32 [])).m23 =
      (getMat (salsa20CtorAscii asciiKey32 [])).m01 ∧
    (getMat (salsa20CtorAscii asciiKey32 [])).m01 = 0x33323130 ∧
    salsa20CtorAscii asciiKey32 [] =
      Except.ok (getMat (salsa20CtorAscii asciiKey32 [])) := by
  refine ⟨by decide, by decide, by decide, rfl⟩

/-- Claim C4 (confirmed): `setNonce` — in both overloads — always ends
in `setCounter(0)`, so the counter words `_matrix[2][0]`,
`_matrix[2][1]` are zero afterwards; and the observable consequence
holds: generate a block, `setCounter(0)`, generate again, and the two
blocks coincide. -/
theorem setNonce_resets_counter :
    (∀ m nonce, (setNonceInt m nonce).m20 = 0 ∧ (setNonceInt m nonce).m21 = 0 ∧
      (keyStreamBlock (setNonceInt m nonce)).1 =
        (keyStreamBlock (setCounter (keyStreamBlock (setNonceInt m nonce)).2 0)).1) ∧
    (∀ m hex mm, setNonceHex m hex = Except.ok mm →
      mm.m20 = 0 ∧ mm.m21 = 0 ∧
      (keyStreamBlock mm).1 =
        (keyStreamBlock (setCounter (keyStreamBlock mm).2 0)).1) := by
  constructor
  · intro m nonce
    exact ⟨rfl, rfl, rfl⟩
  · intro m hex mm h
    simp only [setNonceHex] at h
    split at h
    · split at h
      · exact absurd h (by simp)
      · split at h
        · exact absurd h (by simp)
        · rw [Except.ok.injEq] at h
          subst h
          exact ⟨rfl, rfl, rfl⟩
    · exact absurd h (by simp)

/-- Witness for claim C4: the hex overload at the concrete nonce string
of sixteen zeros, applied to the fresh matrix. -/
theorem setNonce_resets_counter_witness :
    setNonceHex zeroMat ("0000000000000000".data) =
      Except.ok (getMat (setNonceHex zeroMat ("0000000000000000".data))) ∧
    ((getMat (setNonceHex zeroMat ("0000000000000000".data))).m20 = 0 ∧
      (getMat (setNonceHex zeroMat ("0000000000000000".data))).m21 = 0 ∧
      (keyStreamBlock (getMat (setNonceHex zeroMat ("0000000000000000".data)))).1 =
        (keyStreamBlock (setCounter
          (keyStreamBlock (getMat (setNonceHex zeroMat ("0000000000000000".data)))).2
          0)).1) :=
  ⟨rfl, setNonce_resets_counter.2 zeroMat ("0000000000000000".data)
    (getMat (setNonceHex zeroMat ("0000000000000000".data))) rfl⟩

/-- Claim C5 (code_bug): the claim says `setCounter(v)` stores exactly
`v` into the two counter words.  The low-word expression
`(counter & 0x00000000ffffffff) >> 32` (salsa20.cpp:159) masks the low
32 bits and then shifts them out again, so `_matrix[2][1]` is 0 for
EVERY argument; at the concrete failing input `v = 1` the stored
counter words are `(0, 0)`, representing 0, not 1.  The nonce words are
indeed left unchanged. -/
theorem setCounter_low_word_always_zero :
    (∀ m v, (setCounter m v).m21 = 0 ∧
      (setCounter m v).m12 = m.m12 ∧ (setCounter m v).m13 = m.m13) ∧
    (setCounter zeroMat 1).m20 = 0 ∧ (setCounter zeroMat 1).m21 = 0 := by
  refine ⟨fun m v => ⟨maskLow_shift32_eq_zero (v % U64), rfl, rfl⟩, by decide, by decide⟩

/-- Claim C6 (confirmed): the Salsa20 `quarterRound`
(salsa20.cpp:210-215) computes `b ^= rotl(a+d,7); c ^= rotl(b+a,9);
d ^= rotl(c+b,13); a ^= rotl(d+c,18)` with wrapping additions — the
definition above is that sequence verbatim — and on the input
`(0xe7e8c006, 0xc4f9417d, 0x6479b4b2, 0x68c67137)` it yields exactly
`(0xe876d72b, 0x9361dfd5, 0xf1460244, 0x948541a3)`, the known-answer
vector asserted by `Salsa20::tests` (salsa20.cpp:311-313). -/
theorem quarterRound_known_answer :
    quarterRound 0xe7e8c006 0xc4f9417d 0x6479b4b2 0x68c67137 =
      (0xe876d72b, 0x9361dfd5, 0xf1460244, 0x948541a3) := by
  decide

/-- Claim C7 (confirmed): generating a keystream block leaves every
matrix cell other than the two counter words `_matrix[2][0]`,
`_matrix[2][1]` unchanged — the rounds run on a working copy
(salsa20.cpp:221-226), so the constants, key words and nonce words are
identical before and after the call. -/
theorem keyStreamBlock_preserves_non_counter_cells (m : Mat) :
    (keyStreamBlock m).2.m00 = m.m00 ∧ (keyStreamBlock m).2.m01 = m.m01 ∧
    (keyStreamBlock m).2.m02 = m.m02 ∧ (keyStreamBlock m).2.m03 = m.m03 ∧
    (keyStreamBlock m).2.m10 = m.m10 ∧ (keyStreamBlock m).2.m11 = m.m11 ∧
    (keyStreamBlock m).2.m12 = m.m12 ∧ (keyStreamBlock m).2.m13 = m.m13 ∧
    (keyStreamBlock m).2.m22 = m.m22 ∧ (keyStreamBlock m).2.m23 = m.m23 ∧
    (keyStreamBlock m).2.m30 = m.m30 ∧ (keyStreamBlock m).2.m31 = m.m31 ∧
    (keyStreamBlock m).2.m32 = m.m32 ∧ (keyStreamBlock m).2.m33 = m.m33 :=
  ⟨rfl, rfl, rfl, rfl, rfl, rfl, rfl, rfl, rfl, rfl, rfl, rfl, rfl, rfl⟩

/-- Counterexample to claim C8 as stated: at a matrix whose counter
words are all at `UINT32_MAX` — the exhausted state where the claim
demands a typed `CounterExhausted` failure — keystream generation
succeeds, returning a full 64-byte block and the unchanged matrix; the
only exhaustion handling in the file, `incrementCounter`
(salsa20.cpp:174-178), is never called by `keyStreamBlock` and, where it
called, would terminate the process via `exit(EXIT_FAILURE)` (modelled
`CErr.exitFailure`), not deliver a typed error. -/
theorem keyStreamBlock_succeeds_at_exhausted_counter :
    (keyStreamBlock maxMat).2 = maxMat ∧
    (keyStreamBlock maxMat).1.length = 64 ∧
    incrementCounter maxMat = Except.error CErr.exitFailure := by
  refine ⟨rfl, by decide, rfl⟩

/-- Claim C8 (corrected): what actually holds in the code.  Keystream
generation never signals exhaustion: `keyStreamBlock` never invokes
`incrementCounter` (salsa20.cpp:250 is commented out) and never changes
the stored matrix.  The only exhaustion handling in the file is in
`incrementCounter` itself, which fails — by process termination
`exit(EXIT_FAILURE)`, not a typed error — exactly when both of the
cells it uses as counter words are `UINT32_MAX`.  Otherwise it
succeeds: when `_matrix[1][3]` is below `UINT32_MAX` the pair read as a
64-bit value advances by one; when `_matrix[1][3]` is at `UINT32_MAX`
but `_matrix[1][2]` is not, it increments `_matrix[1][2]` WITHOUT
resetting `_matrix[1][3]`, so the pair advances by `2 ^ 32`, not by
one. -/
theorem incrementCounter_exit_conditions :
    (∀ m, incrementCounter m = Except.error CErr.exitFailure ↔
      (m.m13 = U32MAX ∧ m.m12 = U32MAX)) ∧
    (∀ m, m.m13 < U32MAX →
      ∃ mm, incrementCounter m = Except.ok mm ∧ mm.m12 = m.m12 ∧
        mm.m13 = m.m13 + 1 ∧
        mm.m12 * U32 + mm.m13 = m.m12 * U32 + m.m13 + 1) ∧
    (∀ m, m.m13 = U32MAX → m.m12 < U32MAX →
      ∃ mm, incrementCounter m = Except.ok mm ∧ mm.m12 = m.m12 + 1 ∧
        mm.m13 = U32MAX ∧
        mm.m12 * U32 + mm.m13 = m.m12 * U32 + m.m13 + U32) ∧
    (∀ m, (keyStreamBlock m).2 = m) := by
  refine ⟨?_, ?_, ?_, fun m => rfl⟩
  · intro m
    constructor
    · intro h
      by_cases h13 : m.m13 = U32MAX
      · by_cases h12 : m.m12 = U32MAX
        · exact ⟨h13, h12⟩
        · simp [incrementCounter, h13, h12] at h
      · simp [incrementCounter, h13] at h
    · rintro ⟨h13, h12⟩
      simp [incrementCounter, h13, h12]
  · intro m h13
    have hne : m.m13 ≠ U32MAX := Nat.ne_of_lt h13
    have h1 : m.m13 < 4294967295 := h13
    have hU : U32 = 4294967296 := rfl
    have hmod : (m.m13 + 1) % U32 = m.m13 + 1 := by rw [hU]; omega
    refine ⟨{ m with m13 := (m.m13 + 1) % U32 }, ?_, rfl, hmod, ?_⟩
    · simp [incrementCounter, hne]
    · show m.m12 * U32 + (m.m13 + 1) % U32 = m.m12 * U32 + m.m13 + 1
      rw [hmod, hU]
      omega
  · intro m h13 h12
    have hne : m.m12 ≠ U32MAX := Nat.ne_of_lt h12
    have h1 : m.m12 < 4294967295 := h12
    have hU : U32 = 4294967296 := rfl
    have hmod : (m.m12 + 1) % U32 = m.m12 + 1 := by rw [hU]; omega
    refine ⟨{ m with m12 := (m.m12 + 1) % U32 }, ?_, hmod, h13, ?_⟩
    · simp [incrementCounter, h13, hne]
    · show (m.m12 + 1) % U32 * U32 + m.m13 = m.m12 * U32 + m.m13 + U32
      rw [hmod, h13]
      ring

/-- Counterexample to claim C9 as stated: the claim demands two
distinct typed failures (`InvalidNonceLength` for a 17-hex-char nonce,
`InvalidEncoding` for a nonce containing `'g'`) delivered to the
caller.  In the code both inputs fail through the very same C `assert`
mechanism (salsa20.cpp:149 and salsa20.cpp:274) — a debug-build process
abort with no error value, modelled `CErr.assertFail` — so the two
outcomes are identical, not distinct typed errors. -/
theorem setNonceHex_same_failure_for_both_invalid_inputs :
    setNonceHex zeroMat ("00000000000000000".data) =
      setNonceHex zeroMat ("000000000000000g".data) ∧
    setNonceHex zeroMat ("00000000000000000".data) =
      Except.error CErr.assertFail :=
  ⟨rfl, rfl⟩

/-- Claim C9 (corrected): what actually holds.  `setNonce(string)`
rejects its input exactly when it is not 16 characters long or contains
a non-hex character, but every rejection is the single `assert` failure
mode (process abort, `CErr.assertFail`) — never the typed exception
mechanism the file uses elsewhere (`CErr.lengthError`) and never a pair
of distinguishable error kinds. -/
theorem setNonceHex_assert_conditions :
    (∀ m s, setNonceHex m s = Except.error CErr.assertFail ↔
      ¬(s.length = 16 ∧ s.all isHexChar = true)) ∧
    (∀ m s, setNonceHex m s ≠ Except.error CErr.lengthError ∧
      setNonceHex m s ≠ Except.error CErr.exitFailure) := by
  have key : ∀ (m : Mat) (s : List Char),
      (s.length = 16 ∧ s.all isHexChar = true →
        ∃ mm, setNonceHex m s = Except.ok mm) ∧
      (¬(s.length = 16 ∧ s.all isHexChar = true) →
        setNonceHex m s = Except.error CErr.assertFail) := by
    intro m s
    by_cases hl : s.length = 16
    · by_cases hh : s.all isHexChar = true
      · refine ⟨fun _ => ⟨setCounter { m with
            m12 := littleEndianWordFromBytes (hexByte s 0) (hexByte s 2)
              (hexByte s 4) (hexByte s 6),
            m13 := littleEndianWordFromBytes (hexByte s 8) (hexByte s 10)
              (hexByte s 12) (hexByte s 14) } 0, ?_⟩,
          fun hcon => absurd ⟨hl, hh⟩ hcon⟩
        simp [setNonceHex, hexCharsToLittleEndianWord, hl, hh]
      · refine ⟨fun hcon => absurd hcon.2 hh, fun _ => ?_⟩
        simp [setNonceHex, hexCharsToLittleEndianWord, hl, hh]
    · refine ⟨fun hcon => absurd hcon.1 hl, fun _ => ?_⟩
      simp [setNonceHex, hl]
  constructor
  · intro m s
    constructor
    · intro h hcon
      rcases (key m s).1 hcon with ⟨mm, hmm⟩
      rw [hmm] at h
      exact absurd h (by simp)
    · exact (key m s).2
  · intro m s
    by_cases hc : s.length = 16 ∧ s.all isHexChar = true
    · rcases (key m s).1 hc with ⟨mm, hmm⟩
      rw [hmm]
      exact ⟨by simp, by simp⟩
    · rw [(key m s).2 hc]
      exact ⟨by simp, by simp⟩

/-- Claim C10 (code_bug): the claim says the two `setNonce` overloads
leave the instance in the same state for the same 8 nonce bytes.  The
integer overload writes `(nonce & 0x00000000ffffffff) >> 32`
(salsa20.cpp:142) — always 0 — into the low nonce word
`_matrix[1][3]`, for every argument; the string overload decodes hex
characters 8..15 there.  At the concrete nonce value 1 (hex encoding
`"0000000000000001"`) the string overload stores
`_matrix[1][3] = 0x01000000` while the integer overload stores 0, so
the two resulting states differ. -/
theorem setNonce_overloads_disagree :
    (∀ v, (setNonceInt zeroMat v).m13 = 0) ∧
    setNonceHex zeroMat hexNonce1 =
      Except.ok (getMat (setNonceHex zeroMat hexNonce1)) ∧
    (getMat (setNonceHex zeroMat hexNonce1)).m13 = 0x01000000 ∧
    setNonceInt zeroMat 1 ≠ getMat (setNonceHex zeroMat hexNonce1) := by
  refine ⟨fun v => ?_, rfl, by decide, by decide⟩
  show (setCounter _ 0).m13 = 0
  exact maskLow_shift32_eq_zero (v % U64)

/-- Witness for the corrected claim C8 at three concrete matrices: the
exhausted case, the low-cell increment case, and the carry case, each
premise discharged by computation. -/
theorem incrementCounter_exit_conditions_witness :
    incrementCounter maxMat = Except.error CErr.exitFailure ∧
    (∃ mm, incrementCounter zeroMat = Except.ok mm ∧ mm.m12 = zeroMat.m12 ∧
      mm.m13 = zeroMat.m13 + 1 ∧
      mm.m12 * U32 + mm.m13 = zeroMat.m12 * U32 + zeroMat.m13 + 1) ∧
    (∃ mm, incrementCounter carryMat = Except.ok mm ∧
      mm.m12 = carryMat.m12 + 1 ∧ mm.m13 = U32MAX ∧
      mm.m12 * U32 + mm.m13 = carryMat.m12 * U32 + carryMat.m13 + U32) :=
  ⟨(incrementCounter_exit_conditions.1 maxMat).2 ⟨by decide, by decide⟩,
   incrementCounter_exit_conditions.2.1 zeroMat (by decide),
   incrementCounter_exit_conditions.2.2.1 carryMat (by decide) (by decide)⟩

/-- Witness for the corrected claim C9 at a concrete 16-character
string containing a non-hex character. -/
theorem setNonceHex_assert_conditions_witness :
    setNonceHex zeroMat ("0123456789abcdeg".data) =
      Except.error CErr.assertFail :=
  (setNonceHex_assert_conditions.1 zeroMat ("0123456789abcdeg".data)).2 (by decide)

/-- Witness for claim C10 at the concrete nonce value 3. -/
theorem setNonce_overloads_disagree_witness :
    (setNonceInt zeroMat 3).m13 = 0 :=
  setNonce_overloads_disagree.1 3

end Salsa20




